import Mathlib

/-!
Shallow embedding of the Travel Planning Assistant backend
(`session_manager.py`, `travel_agent.py`, `backend.py`).

Modelling conventions:
* Python `datetime` values are modelled as rationals (`ℚ`); each store
  operation receives the current clock value `now` explicitly.  A stored
  `last_updated` / `created_at` field is a `TimeStamp`: either a parseable
  time, a present-but-unparseable string, or missing (`None` / absent key).
* Python dicts with string keys are modelled as association lists with the
  dict's replace-in-place / append-at-end update discipline.
* Preference and context values are modelled as strings (the code treats
  them opaquely).
* OpenAI gateway calls are external collaborators: they are passed in as
  oracle functions returning `Except String α` — `.error e` models the call
  raising an exception whose `str` is `e`.
* Python numeric literals (0.5, 0.7, 0.95 …) are modelled as rationals.
-/

namespace TravelPlanner

/-- A timestamp field as stored in a session record: a parseable time,
a present-but-unparseable string, or missing (`None`). -/
inductive TimeStamp where
  | missing
  | unparseable
  | time (t : ℚ)
deriving DecidableEq

/-- One entry of a conversation transcript: a role-tagged message dict. -/
structure ChatMessage where
  role : String
  content : String
deriving DecidableEq

/-- A session record, mirroring the dict created by
`SessionManager.get_session` in `session_manager.py`. -/
structure SessionRecord where
  created_at : TimeStamp
  last_updated : TimeStamp
  messages : List ChatMessage
  user_preferences : List (String × String)
  travel_context : List (String × String)
deriving DecidableEq

/-- The in-memory session store: `SessionManager.sessions`, a dict from
session id to session record, modelled as an association list in insertion
order. -/
abbrev Store := List (String × SessionRecord)

/-- Dict lookup on an association list (first matching key). -/
def alookup {β : Type} (l : List (String × β)) (k : String) : Option β :=
  match l with
  | [] => none
  | (kk, v) :: rest => if kk = k then some v else alookup rest k

/-- Dict assignment `d[k] = v`: replace the first binding of `k` in place,
or append a new binding at the end — Python dict insertion-order semantics. -/
def aset {β : Type} (l : List (String × β)) (k : String) (v : β) :
    List (String × β) :=
  match l with
  | [] => [(k, v)]
  | (kk, vv) :: rest =>
      if kk = k then (k, v) :: rest else (kk, vv) :: aset rest k v

/-- Dict deletion `del d[k]`: drop every binding of `k` (keys are unique in
a store built by the operations below). -/
def adelete {β : Type} (l : List (String × β)) (k : String) :
    List (String × β) :=
  match l with
  | [] => []
  | (kk, v) :: rest =>
      if kk = k then adelete rest k else (kk, v) :: adelete rest k

/-- `dict.update(other)`: fold the new bindings over the old dict. -/
def dict_update (old upd : List (String × String)) :
    List (String × String) :=
  upd.foldl (fun acc kv => aset acc kv.1 kv.2) old

/-- The fresh record `get_session` creates for an unseen id: empty
messages/preferences/context, current timestamp for both timestamps. -/
def emptyRecord (now : ℚ) : SessionRecord :=
  { created_at := .time now, last_updated := .time now,
    messages := [], user_preferences := [], travel_context := [] }

/-- `SessionManager.get_session`: get-or-create.  If the id is absent,
insert a fresh record; otherwise refresh `last_updated`.  Returns the
updated store and the record handed back to the caller. -/
def get_session (s : Store) (sid : String) (now : ℚ) :
    Store × SessionRecord :=
  match alookup s sid with
  | none => (aset s sid (emptyRecord now), emptyRecord now)
  | some r =>
      let rr := { r with last_updated := TimeStamp.time now }
      (aset s sid rr, rr)

/-- `SessionManager.update_session`.  All call sites in the repository pass
a complete session dict, so `data` is modelled as a full record; the
present branch (`dict.update` after forcing `last_updated = now`) then
stores `data` with `last_updated` refreshed, and the absent branch stamps
both timestamps before storing. -/
def update_session (s : Store) (sid : String) (data : SessionRecord)
    (now : ℚ) : Store :=
  match alookup s sid with
  | some _ => aset s sid { data with last_updated := TimeStamp.time now }
  | none =>
      aset s sid { data with created_at := TimeStamp.time now,
                             last_updated := TimeStamp.time now }

/-- `SessionManager.clear_session`: if the id is present, reset `messages`
to empty and refresh `last_updated`, keeping all other fields; otherwise do
nothing. -/
def clear_session (s : Store) (sid : String) (now : ℚ) : Store :=
  match alookup s sid with
  | some r =>
      aset s sid { r with messages := [], last_updated := TimeStamp.time now }
  | none => s

/-- `SessionManager.delete_session`: remove the record entirely, reporting
whether it existed. -/
def delete_session (s : Store) (sid : String) : Store × Bool :=
  match alookup s sid with
  | some _ => (adelete s sid, true)
  | none => (s, false)

/-- The per-record eviction test of `SessionManager.cleanup_old_sessions`:
a missing `last_updated` fails the truthiness guard and is skipped (kept);
an unparseable one raises `ValueError`, which the handler turns into a
deletion; a parseable one is deleted iff strictly older than the cutoff. -/
def should_evict (r : SessionRecord) (cutoff : ℚ) : Bool :=
  match r.last_updated with
  | .missing => false
  | .unparseable => true
  | .time t => decide (t < cutoff)

/-- `SessionManager.cleanup_old_sessions`: two-phase eviction — first
collect the ids of records to delete, then delete them one by one; return
how many ids were collected.  The cutoff is `now - hours` (the
`timedelta` subtraction, with time measured in hours). -/
def cleanup_old_sessions (s : Store) (now hours : ℚ) : Store × Nat :=
  let cutoff := now - hours
  let toDelete := (s.filter (fun p => should_evict p.2 cutoff)).map
    (fun p => p.1)
  (toDelete.foldl (fun acc sid => adelete acc sid) s, toDelete.length)

/-- `SessionManager.save_user_preference`: get-or-create the session, set
the preference key, write the record back through `update_session`. -/
def save_user_preference (s : Store) (sid key value : String) (now : ℚ) :
    Store :=
  let gs := get_session s sid now
  let rr := { gs.2 with
    user_preferences := aset gs.2.user_preferences key value }
  update_session gs.1 sid rr now

/-- `SessionManager.get_user_preference`: get-or-create the session (this
refreshes or creates the record as a side effect), then read the key with
a default.  Returns the updated store and the value. -/
def get_user_preference (s : Store) (sid key dflt : String) (now : ℚ) :
    Store × String :=
  let gs := get_session s sid now
  (gs.1, (alookup gs.2.user_preferences key).getD dflt)

/-- `SessionManager.save_travel_context`: get-or-create, merge the partial
context into the stored one (`dict.update`), write back. -/
def save_travel_context (s : Store) (sid : String)
    (ctx : List (String × String)) (now : ℚ) : Store :=
  let gs := get_session s sid now
  let rr := { gs.2 with
    travel_context := dict_update gs.2.travel_context ctx }
  update_session gs.1 sid rr now

/-- `SessionManager.get_travel_context`: get-or-create, then read the
context mapping. -/
def get_travel_context (s : Store) (sid : String) (now : ℚ) :
    Store × List (String × String) :=
  let gs := get_session s sid now
  (gs.1, gs.2.travel_context)

/-! ### The conversation workflow (`travel_agent.py`) -/

/-- The closed intent enumeration listed in the classifier system prompt. -/
def valid_intents : List String :=
  ["destination_inquiry", "itinerary_planning", "budget_planning",
   "accommodation", "transportation", "dining", "requirements",
   "general_travel", "greeting", "other"]

/-- The default intent used by every fallback path. -/
def default_intent : String := "general_travel"

/-- The JSON object shape the classifier is asked to return; each field is
optional because `dict.get` is used with a default.  `none` at the outer
level (see `analyze_travel_intent`) models `json.loads` failing or the
content not being a JSON object at all. -/
structure ClassifierJson where
  intent : Option String
  confidence : Option ℚ
  key_entities : Option (List String)
deriving DecidableEq

/-- The classification fields `analyze_travel_intent` writes into the
workflow state. -/
structure IntentResult where
  intent : String
  entities : List String
  confidence : ℚ
deriving DecidableEq

/-- `analyze_travel_intent` (graph node): one structured gateway call on
the current message only; the `try` block parses the content and reads
each field with an individual `dict.get` default, and the bare `except`
turns any parse failure into the full default triple.  A gateway
exception propagates out of the node. -/
def analyze_travel_intent
    (clsGw : String → Except String (Option ClassifierJson))
    (message : String) : Except String IntentResult :=
  match clsGw message with
  | .error e => .error e
  | .ok none => .ok ⟨default_intent, [], (1/2 : ℚ)⟩
  | .ok (some j) =>
      .ok ⟨j.intent.getD default_intent, j.key_entities.getD [],
           j.confidence.getD (1/2 : ℚ)⟩

/-- The fallback prompt bound to the "general_travel" key. -/
def general_travel_prompt : String :=
  "You are an experienced travel advisor. Provide helpful, practical travel advice and be ready to assist with any aspect of trip planning."

/-- The static per-intent system prompt table of
`generate_travel_response`. -/
def system_prompts : List (String × String) :=
  [("destination_inquiry", "You are an expert travel advisor specializing in destination recommendations. Provide detailed, personalized suggestions based on the user\u0027s preferences, including best times to visit, must-see attractions, and insider tips."),
   ("itinerary_planning", "You are a professional itinerary planner. Create detailed day-by-day plans with specific times, locations, and activities. Consider travel time between locations and practical logistics."),
   ("budget_planning", "You are a travel budget specialist. Provide detailed cost breakdowns for different travel styles (budget, mid-range, luxury) including accommodation, food, transportation, and activities."),
   ("accommodation", "You are a hotel and accommodation expert. Recommend specific places to stay based on budget, location preferences, and travel style. Include booking tips and alternatives."),
   ("transportation", "You are a transportation planning expert. Provide detailed advice on flights, ground transportation, and local travel options with specific recommendations and booking strategies."),
   ("dining", "You are a culinary travel expert. Recommend authentic local restaurants, must-try dishes, food markets, and dining experiences that showcase local culture."),
   ("requirements", "You are a travel documentation and requirements specialist. Provide accurate, up-to-date information about visas, passports, health requirements, and travel restrictions."),
   ("greeting", "You are a friendly travel planning assistant. Welcome the user warmly and explain how you can help them plan their perfect trip."),
   ("general_travel", general_travel_prompt)]

/-- The fixed instruction tail appended (after a blank line) to every
selected system prompt. -/
def instruction_tail : String :=
  "\n\nAlways be enthusiastic, helpful, and provide actionable advice. If you need more information to give better recommendations, ask specific follow-up questions."

/-- The system message `generate_travel_response` builds: the
intent-selected prompt (falling back to the general-travel prompt for any
other intent) plus the fixed instruction tail. -/
def system_message (intent : String) : ChatMessage :=
  ⟨"system", (alookup system_prompts intent).getD general_travel_prompt
      ++ instruction_tail⟩

/-- The outbound message list of `generate_travel_response`:
system message, then `history[-6:]` in original order, then the current
user message. -/
def build_messages (intent : String) (history : List ChatMessage)
    (message : String) : List ChatMessage :=
  [system_message intent] ++ history.drop (history.length - 6)
    ++ [⟨"user", message⟩]

/-- `generate_travel_response` (graph node): one gateway call on the
built message list; the raw text becomes the draft response, and a
gateway exception propagates out of the node. -/
def generate_travel_response
    (genGw : List ChatMessage → Except String String)
    (intent : String) (history : List ChatMessage) (message : String) :
    Except String String :=
  genGw (build_messages intent history message)

/-- The three intents that carry a follow-up question bank. -/
def followup_intents : List String :=
  ["destination_inquiry", "itinerary_planning", "budget_planning"]

/-- `should_ask_followup` (conditional edge): route to the follow-up node
exactly when the intent carries a question bank and confidence exceeds
0.7. -/
def should_ask_followup (intent : String) (confidence : ℚ) : String :=
  if intent ∈ followup_intents ∧ confidence > (7/10 : ℚ) then ("followup")
  else ("respond")

/-- The three-question bank per follow-up intent. -/
def followup_questions : List (String × List String) :=
  [("destination_inquiry",
    ["What\u0027s your budget range for this trip?",
     "How many days are you planning to travel?",
     "What type of activities interest you most (adventure, culture, relaxation, nightlife)?"]),
   ("itinerary_planning",
    ["What\u0027s your preferred pace (packed schedule vs. relaxed)?",
     "Are there any specific must-see attractions on your list?",
     "What\u0027s your accommodation preference (location, style)?"]),
   ("budget_planning",
    ["What\u0027s your total budget range?",
     "Which expenses are most important to you (accommodation, food, activities)?",
     "Are you flexible with travel dates for better deals?"])]

/-- The fixed header prefixed to the follow-up block. -/
def followup_header : String :=
  "\n\n🤔 **To help you better, I\u0027d love to know:**\n"

/-- `add_followup_questions` (graph node): if the intent has a question
bank, append the fixed header plus the first two questions, each as a
bulleted line joined by newlines, to the existing response. -/
def add_followup_questions (resp intent : String) : String :=
  match alookup followup_questions intent with
  | some qs =>
      resp ++ (followup_header
        ++ String.intercalate ("\n") ((qs.take 2).map (fun q => "• " ++ q)))
  | none => resp

/-- The conditional edge after generation: run the follow-up node exactly
when `should_ask_followup` routes to it. -/
def run_followup_stage (intent : String) (confidence : ℚ)
    (resp : String) : String :=
  if should_ask_followup intent confidence = "followup" then
    add_followup_questions resp intent
  else resp

/-- One compiled-graph invocation: classify, generate, then conditionally
augment; a node exception propagates out as the graph's exception. -/
def graph_invoke (clsGw : String → Except String (Option ClassifierJson))
    (genGw : List ChatMessage → Except String String)
    (message : String) (history : List ChatMessage) :
    Except String String :=
  match analyze_travel_intent clsGw message with
  | .error e => .error e
  | .ok ir =>
      match generate_travel_response genGw ir.intent history message with
      | .error e => .error e
      | .ok resp => .ok (run_followup_stage ir.intent ir.confidence resp)

/-- A Python `try`/`except` whose handler returns a replacement value:
the body's exception never escapes. -/
def py_try {α : Type} (body : Except String α) (handler : String → α) :
    Except String α :=
  match body with
  | .ok a => .ok a
  | .error e => .ok (handler e)

/-- `TravelPlanningAgent._run_graph_async`: invoke the graph, and turn a
graph exception into a state whose only field is the error text.  The
result is the `response` entry of the returned dict (absent only if the
graph somehow returned a state without one). -/
def run_graph_async (clsGw : String → Except String (Option ClassifierJson))
    (genGw : List ChatMessage → Except String String)
    (message : String) (history : List ChatMessage) : Option String :=
  match graph_invoke clsGw genGw message history with
  | .ok resp => some resp
  | .error e => some ("Graph execution error: " ++ e)

/-- The history reshaping at the top of `process_message`: keep only
user/assistant turns, rebuilt as role/content pairs; other roles are
dropped. -/
def format_history (history : List ChatMessage) : List ChatMessage :=
  history.filterMap (fun m =>
    if m.role = "user" then some ⟨"user", m.content⟩
    else if m.role = "assistant" then some ⟨"assistant", m.content⟩
    else none)

/-- `TravelPlanningAgent.process_message`: reshape the history, run the
graph (whose own exceptions are absorbed by `run_graph_async`), read the
`response` key with an apologetic default, and catch anything else at the
outer boundary with the trip-planning apology embedding the error text. -/
def process_message (clsGw : String → Except String (Option ClassifierJson))
    (genGw : List ChatMessage → Except String String)
    (message _sessionId : String) (history : List ChatMessage) :
    Except String String :=
  py_try
    (match run_graph_async clsGw genGw message (format_history history) with
     | some resp => .ok resp
     | none =>
        .ok ("I\u0027m sorry, I couldn\u0027t process your travel request. Please try again!"))
    (fun e => "I encountered an error while planning your trip: " ++ e
      ++ ". Please try rephrasing your question.")

/-! ### The HTTP layer (`backend.py`) -/

/-- The body of the `/sessions/(session_id)` endpoint response. -/
structure SessionInfo where
  session_id : String
  message_count : Nat
  created_at : TimeStamp
  last_updated : TimeStamp
deriving DecidableEq

/-- `get_session_info` (backend endpoint): calls the store's
`get_session` — which is get-or-create — and reports the record's message
count and timestamps.  `Except.error` models the 404 path of the handler;
since `get_session` never raises, the endpoint can only answer `.ok`. -/
def get_session_info (s : Store) (sid : String) (now : ℚ) :
    Store × Except String SessionInfo :=
  let gs := get_session s sid now
  (gs.1, .ok { session_id := sid, message_count := gs.2.messages.length,
               created_at := gs.2.created_at,
               last_updated := gs.2.last_updated })

/-! ### Store operations as a single step type (for the timestamp
invariant) -/

/-- One `SessionManager` operation, as performed against the store. -/
inductive SMOp where
  | getSession (sid : String)
  | updateSession (sid : String) (data : SessionRecord)
  | clearSession (sid : String)
  | deleteSession (sid : String)
  | cleanup (hours : ℚ)
  | savePref (sid key value : String)
  | getPref (sid key dflt : String)
  | saveContext (sid : String) (ctx : List (String × String))
  | getContext (sid : String)

/-- The store component of running one operation at clock value `now`. -/
def applyOp (s : Store) (op : SMOp) (now : ℚ) : Store :=
  match op with
  | .getSession sid => (get_session s sid now).1
  | .updateSession sid data => update_session s sid data now
  | .clearSession sid => clear_session s sid now
  | .deleteSession sid => (delete_session s sid).1
  | .cleanup hours => (cleanup_old_sessions s now hours).1
  | .savePref sid key value => save_user_preference s sid key value now
  | .getPref sid key dflt => (get_user_preference s sid key dflt now).1
  | .saveContext sid ctx => save_travel_context s sid ctx now
  | .getContext sid => (get_travel_context s sid now).1

/-- A record is well-formed when both timestamps are parseable times and
`last_updated ≥ created_at`. -/
def recWF (r : SessionRecord) : Prop :=
  ∃ tc tl : ℚ, r.created_at = TimeStamp.time tc
    ∧ r.last_updated = TimeStamp.time tl ∧ tc ≤ tl

/-- Every record in the store is well-formed. -/
def storeWF (s : Store) : Prop := ∀ p ∈ s, recWF p.2

/-- A record was created no later than `now`. -/
def recLe (r : SessionRecord) (now : ℚ) : Prop :=
  ∀ tc : ℚ, r.created_at = TimeStamp.time tc → tc ≤ now

/-- Clock monotonicity: no record in the store was created in the
future. -/
def storeLe (s : Store) (now : ℚ) : Prop := ∀ p ∈ s, recLe p.2 now

/-- The only operation taking a caller-supplied record is `update`; its
call sites always pass a record previously obtained from the store, so
its `created_at` is a parseable time not in the future. -/
def opWF (op : SMOp) (now : ℚ) : Prop :=
  match op with
  | .updateSession _ data =>
      ∃ tc : ℚ, data.created_at = TimeStamp.time tc ∧ tc ≤ now
  | _ => True

/-! ### Concrete records used by counterexamples and witnesses -/

/-- A session record whose `last_updated` value is missing (`None`). -/
def recMissingTS : SessionRecord :=
  { created_at := .time 0, last_updated := .missing,
    messages := [], user_preferences := [], travel_context := [] }

/-- A well-formed sample record with one transcript entry and one stored
preference. -/
def sampleRecord : SessionRecord :=
  { created_at := .time 1, last_updated := .time 2,
    messages := [⟨"user", "hi"⟩],
    user_preferences := [("budget", "low")],
    travel_context := [("destination", "Japan")] }

/-- A classifier payload whose intent lies outside the ten-value
enumeration, with all three fields present. -/
def bananaJson : ClassifierJson :=
  { intent := some "banana", confidence := some (9/10 : ℚ),
    key_entities := some ["Japan"] }

/-! ## Association-list lemmas -/

theorem alookup_aset_self {β : Type} (l : List (String × β)) (k : String)
    (v : β) : alookup (aset l k v) k = some v := by
  induction l with
  | nil => simp [aset, alookup]
  | cons q rest ih =>
      obtain ⟨kk, vv⟩ := q
      by_cases h : kk = k
      · simp [aset, h, alookup]
      · simp [aset, h, alookup, ih]

theorem alookup_aset_ne {β : Type} (l : List (String × β)) (k k2 : String)
    (v : β) (h : k2 ≠ k) : alookup (aset l k v) k2 = alookup l k2 := by
  induction l with
  | nil => simp [aset, alookup, Ne.symm h]
  | cons q rest ih =>
      obtain ⟨kk, vv⟩ := q
      by_cases hk : kk = k
      · simp [aset, alookup, hk, Ne.symm h]
      · simp [aset, alookup, hk, ih]

theorem alookup_mem {β : Type} {l : List (String × β)} {k : String}
    {v : β} (h : alookup l k = some v) : (k, v) ∈ l := by
  induction l with
  | nil => simp [alookup] at h
  | cons q rest ih =>
      obtain ⟨kk, vv⟩ := q
      by_cases hk : kk = k
      · rw [alookup] at h
        simp [hk] at h
        simp [hk, h]
      · rw [alookup] at h
        simp [hk] at h
        exact List.mem_cons_of_mem _ (ih h)

theorem mem_aset {β : Type} {l : List (String × β)} {k : String} {v : β}
    {p : String × β} (hp : p ∈ aset l k v) : p = (k, v) ∨ p ∈ l := by
  induction l with
  | nil => simpa [aset] using hp
  | cons q rest ih =>
      obtain ⟨kk, vv⟩ := q
      by_cases h : kk = k
      · rw [aset] at hp
        simp only [h, if_pos] at hp
        rcases List.mem_cons.mp hp with h1 | h1
        · exact Or.inl h1
        · exact Or.inr (List.mem_cons_of_mem _ h1)
      · rw [aset] at hp
        simp only [h, if_neg, if_false] at hp
        rcases List.mem_cons.mp hp with h1 | h1
        · exact Or.inr (by simp [h1])
        · rcases ih h1 with h2 | h2
          · exact Or.inl h2
          · exact Or.inr (List.mem_cons_of_mem _ h2)

theorem adelete_eq_filter {β : Type} (l : List (String × β)) (k : String) :
    adelete l k = l.filter (fun p => decide (p.1 ≠ k)) := by
  induction l with
  | nil => rfl
  | cons q rest ih =>
      obtain ⟨kk, vv⟩ := q
      by_cases h : kk = k <;> simp [adelete, h, ih, List.filter_cons]

theorem foldl_adelete_eq_filter (ids : List String) (s : Store) :
    ids.foldl (fun acc sid => adelete acc sid) s
      = s.filter (fun p => decide (p.1 ∉ ids)) := by
  induction ids generalizing s with
  | nil => simp
  | cons i ids ih =>
      rw [List.foldl_cons, ih, adelete_eq_filter, List.filter_filter]
      refine List.filter_congr ?_
      intro p hp
      simp [List.mem_cons, not_or, Bool.and_comm]

theorem mem_evict_ids_iff (s : Store) (c : ℚ)
    (hnd : (s.map (fun p => p.1)).Nodup) {p : String × SessionRecord}
    (hp : p ∈ s) :
    p.1 ∈ (s.filter (fun q => should_evict q.2 c)).map (fun q => q.1)
      ↔ should_evict p.2 c = true := by
  constructor
  · intro h
    rcases List.mem_map.mp h with ⟨q, hq, hq1⟩
    rcases List.mem_filter.mp hq with ⟨hqs, hqe⟩
    have hqp : q = p := List.inj_on_of_nodup_map hnd hqs hp hq1
    rw [← hqp]
    exact hqe
  · intro h
    exact List.mem_map.mpr ⟨p, List.mem_filter.mpr ⟨hp, h⟩, rfl⟩

/-! ## Claim theorems: session eviction (C5) -/

/-- Claim C5 counterexample: a record whose `last_updated` is missing
survives `cleanup_old_sessions` and is not counted, contradicting the
claim that no record with a missing timestamp survives eviction. -/
theorem cleanup_missing_survives_counterexample :
    recMissingTS.last_updated = TimeStamp.missing
    ∧ (cleanup_old_sessions [("a", recMissingTS)] 100 10).1
        = [("a", recMissingTS)]
    ∧ (cleanup_old_sessions [("a", recMissingTS)] 100 10).2 = 0 := by
  refine ⟨rfl, ?_, ?_⟩ <;> decide

/-- Claim C5 (amended): on a store with distinct session ids,
`cleanup_old_sessions` removes exactly the records whose `last_updated`
is a parseable time strictly older than `now - hours` together with those
whose `last_updated` is present but unparseable; records whose
`last_updated` is missing survive; the surviving records are unchanged
and keep their order, and the returned count is the number of records
removed. -/
theorem cleanup_old_sessions_spec (s : Store) (now hours : ℚ)
    (hnd : (s.map (fun p => p.1)).Nodup) :
    (cleanup_old_sessions s now hours).1
        = s.filter (fun p => !should_evict p.2 (now - hours))
    ∧ (cleanup_old_sessions s now hours).2
        = s.countP (fun p => should_evict p.2 (now - hours))
    ∧ (∀ r : SessionRecord, ∀ t : ℚ, r.last_updated = TimeStamp.time t →
        (should_evict r (now - hours) = true ↔ t < now - hours))
    ∧ (∀ r : SessionRecord, r.last_updated = TimeStamp.unparseable →
        should_evict r (now - hours) = true)
    ∧ (∀ r : SessionRecord, r.last_updated = TimeStamp.missing →
        should_evict r (now - hours) = false) := by
  refine ⟨?_, ?_, ?_, ?_, ?_⟩
  · show (((s.filter (fun p => should_evict p.2 (now - hours))).map
        (fun p => p.1)).foldl (fun acc sid => adelete acc sid) s) = _
    rw [foldl_adelete_eq_filter]
    refine List.filter_congr ?_
    intro p hp
    simp [mem_evict_ids_iff s (now - hours) hnd hp]
  · show ((s.filter (fun p => should_evict p.2 (now - hours))).map
        (fun p => p.1)).length = _
    rw [List.length_map, List.countP_eq_length_filter]
  · intro r t h
    simp [should_evict, h]
  · intro r h
    simp [should_evict, h]
  · intro r h
    simp [should_evict, h]

/-- Witness for `cleanup_old_sessions_spec` at a concrete two-record
store: the stale parseable record is evicted, the missing-timestamp one
survives, and the count is 1. -/
theorem cleanup_old_sessions_spec_witness :
    (([("a", sampleRecord), ("b", recMissingTS)] : Store).map
        (fun p => p.1)).Nodup
    ∧ (cleanup_old_sessions [("a", sampleRecord), ("b", recMissingTS)]
        100 10).1 = [("b", recMissingTS)]
    ∧ (cleanup_old_sessions [("a", sampleRecord), ("b", recMissingTS)]
        100 10).2 = 1 := by
  have h := cleanup_old_sessions_spec
    [("a", sampleRecord), ("b", recMissingTS)] 100 10 (by decide)
  refine ⟨by decide, ?_, ?_⟩
  · rw [h.1]
    norm_num [List.filter_cons, should_evict, sampleRecord, recMissingTS]
  · rw [h.2.1]
    norm_num [List.countP_cons, should_evict, sampleRecord, recMissingTS]

/-! ## Claim theorems: clear (C8), get-or-create (C9), preferences
(C10) -/

/-- Claim C8: for a present id, `clear_session` resets that session's
messages to empty and refreshes `last_updated` while leaving
`user_preferences`, `travel_context` and `created_at` unchanged (the
record-update expression keeps every other field), and leaves every other
session's record untouched; for an absent id it is a no-op and the store
is unchanged. -/
theorem clear_session_spec (s : Store) (sid : String) (now : ℚ) :
    (∀ r : SessionRecord, alookup s sid = some r →
        alookup (clear_session s sid now) sid
          = some { r with
              messages := [],
              last_updated := TimeStamp.time now }
      ∧ ∀ sid2 : String, sid2 ≠ sid →
          alookup (clear_session s sid now) sid2 = alookup s sid2)
    ∧ (alookup s sid = none → clear_session s sid now = s) := by
  constructor
  · intro r hr
    refine ⟨?_, ?_⟩
    · simp only [clear_session, hr]
      exact alookup_aset_self s sid _
    · intro sid2 h2
      simp only [clear_session, hr]
      exact alookup_aset_ne s sid sid2 _ h2
  · intro h
    simp only [clear_session, h]

/-- Witness for `clear_session_spec` on a one-record store: the cleared
record keeps its preferences, context and creation time, and a different
id reads the same as before. -/
theorem clear_session_spec_witness :
    alookup ([("a", sampleRecord)] : Store) ("a") = some sampleRecord
    ∧ alookup (clear_session [("a", sampleRecord)] ("a") 5) ("a")
        = some { sampleRecord with
            messages := [],
            last_updated := TimeStamp.time 5 }
    ∧ alookup (clear_session [("a", sampleRecord)] ("a") 5) ("b")
        = alookup ([("a", sampleRecord)] : Store) ("b") := by
  have h := (clear_session_spec [("a", sampleRecord)] ("a") 5).1
    sampleRecord (by decide)
  exact ⟨by decide, h.1, h.2 ("b") (by decide)⟩

/-- Claim C9: for an id never seen before, `get_session` creates and
returns a record with empty messages, preferences and context, with the
current time for both timestamps; an immediately following `get_session`
at a later (or equal) time returns the existing record with the same
`created_at` and a `last_updated` greater than or equal to the first
call's. -/
theorem get_or_create_spec (s : Store) (sid : String) (t1 t2 : ℚ)
    (habs : alookup s sid = none) (hle : t1 ≤ t2) :
    (get_session s sid t1).2
        = { created_at := TimeStamp.time t1,
            last_updated := TimeStamp.time t1, messages := [],
            user_preferences := [], travel_context := [] }
    ∧ (get_session (get_session s sid t1).1 sid t2).2
        = { created_at := TimeStamp.time t1,
            last_updated := TimeStamp.time t2, messages := [],
            user_preferences := [], travel_context := [] }
    ∧ (get_session (get_session s sid t1).1 sid t2).2.created_at
        = (get_session s sid t1).2.created_at
    ∧ (∃ l1 l2 : ℚ,
        (get_session s sid t1).2.last_updated = TimeStamp.time l1
        ∧ (get_session (get_session s sid t1).1 sid t2).2.last_updated
            = TimeStamp.time l2
        ∧ l1 ≤ l2) := by
  refine ⟨?_, ?_, ?_, ⟨t1, t2, ?_, ?_, hle⟩⟩ <;>
    simp [get_session, habs, alookup_aset_self, emptyRecord]

/-- Witness for `get_or_create_spec`: creating session `a` in the empty
store at time 1 and reading it again at time 3. -/
theorem get_or_create_spec_witness :
    alookup ([] : Store) ("a") = none ∧ (1 : ℚ) ≤ 3
    ∧ (get_session ([] : Store) ("a") 1).2
        = { created_at := TimeStamp.time 1,
            last_updated := TimeStamp.time 1, messages := [],
            user_preferences := [], travel_context := [] }
    ∧ (get_session (get_session ([] : Store) ("a") 1).1 ("a") 3).2
        = { created_at := TimeStamp.time 1,
            last_updated := TimeStamp.time 3, messages := [],
            user_preferences := [], travel_context := [] } := by
  have h := get_or_create_spec ([] : Store) ("a") 1 3 (by decide)
    (by norm_num)
  exact ⟨by decide, by norm_num, h.1, h.2.1⟩

/-- Claim C10: saving a preference and reading the same key back from the
same session returns the saved value; a key never saved in that session
still reads as the supplied default afterwards; and the save/get pair
leaves every other session's record untouched (the save alone as well). -/
theorem preference_roundtrip_spec (s : Store) (sid key value dflt : String)
    (t1 t2 : ℚ) :
    (get_user_preference (save_user_preference s sid key value t1)
        sid key dflt t2).2 = value
    ∧ (∀ sid2 : String, sid2 ≠ sid →
        alookup (get_user_preference (save_user_preference s sid key value t1)
            sid key dflt t2).1 sid2 = alookup s sid2
        ∧ alookup (save_user_preference s sid key value t1) sid2
            = alookup s sid2)
    ∧ (∀ key2 : String, key2 ≠ key →
        (∀ r : SessionRecord, alookup s sid = some r →
            alookup r.user_preferences key2 = none) →
        (get_user_preference (save_user_preference s sid key value t1)
            sid key2 dflt t2).2 = dflt) := by
  cases h : alookup s sid with
  | none =>
      refine ⟨?_, ?_, ?_⟩
      · simp [save_user_preference, get_user_preference, get_session,
          update_session, h, alookup_aset_self, emptyRecord]
      · intro sid2 h2
        simp only [save_user_preference, get_user_preference, get_session,
          update_session, h, alookup_aset_self]
        rw [alookup_aset_ne _ _ _ _ h2, alookup_aset_ne _ _ _ _ h2,
          alookup_aset_ne _ _ _ _ h2]
        exact ⟨rfl, rfl⟩
      · intro key2 hk2 _
        simp [save_user_preference, get_user_preference, get_session,
          update_session, h, alookup_aset_self, emptyRecord,
          alookup_aset_ne _ _ _ _ hk2, alookup]
  | some r =>
      refine ⟨?_, ?_, ?_⟩
      · simp [save_user_preference, get_user_preference, get_session,
          update_session, h, alookup_aset_self]
      · intro sid2 h2
        simp only [save_user_preference, get_user_preference, get_session,
          update_session, h, alookup_aset_self]
        rw [alookup_aset_ne _ _ _ _ h2, alookup_aset_ne _ _ _ _ h2,
          alookup_aset_ne _ _ _ _ h2]
        exact ⟨rfl, rfl⟩
      · intro key2 hk2 hnone
        simp [save_user_preference, get_user_preference, get_session,
          update_session, h, alookup_aset_self,
          alookup_aset_ne _ _ _ _ hk2, hnone r rfl]

/-- Witness for `preference_roundtrip_spec`: save and read back a budget
preference in a fresh session, check a foreign session id and an unsaved
key. -/
theorem preference_roundtrip_spec_witness :
    (get_user_preference (save_user_preference ([] : Store) ("a")
        ("budget") ("low") 1) ("a") ("budget") ("fallback") 2).2 = "low"
    ∧ alookup (get_user_preference (save_user_preference ([] : Store)
        ("a") ("budget") ("low") 1) ("a") ("budget") ("fallback") 2).1
        ("b") = alookup ([] : Store) ("b")
    ∧ (get_user_preference (save_user_preference ([] : Store) ("a")
        ("budget") ("low") 1) ("a") ("pace") ("fallback") 2).2
        = "fallback" := by
  have h := preference_roundtrip_spec ([] : Store) ("a") ("budget")
    ("low") ("fallback") 1 2
  refine ⟨h.1, (h.2.1 ("b") (by decide)).1, ?_⟩
  exact h.2.2 ("pace") (by decide) (fun r hr => by simp [alookup] at hr)

/-! ## Claim theorems: the timestamp invariant (C7) -/

theorem recWF_emptyRecord (now : ℚ) : recWF (emptyRecord now) :=
  ⟨now, now, rfl, rfl, le_refl now⟩

theorem storeWF_aset {s : Store} {sid : String} {r : SessionRecord}
    (hs : storeWF s) (hr : recWF r) : storeWF (aset s sid r) := by
  intro p hp
  rcases mem_aset hp with h | h
  · rw [h]
    exact hr
  · exact hs p h

theorem storeLe_aset {s : Store} {sid : String} {r : SessionRecord}
    {now : ℚ} (hs : storeLe s now) (hr : recLe r now) :
    storeLe (aset s sid r) now := by
  intro p hp
  rcases mem_aset hp with h | h
  · rw [h]
    exact hr
  · exact hs p h

theorem storeWF_of_sub {s s2 : Store} (hsub : ∀ p ∈ s2, p ∈ s)
    (hs : storeWF s) : storeWF s2 :=
  fun p hp => hs p (hsub p hp)

theorem get_session_wf {s : Store} {sid : String} {now : ℚ}
    (hs : storeWF s) (hle : storeLe s now) :
    storeWF (get_session s sid now).1
    ∧ storeLe (get_session s sid now).1 now
    ∧ recWF (get_session s sid now).2
    ∧ recLe (get_session s sid now).2 now := by
  cases h : alookup s sid with
  | none =>
      have hr : recWF (emptyRecord now) := recWF_emptyRecord now
      have hrle : recLe (emptyRecord now) now := by
        intro tc htc
        simp only [emptyRecord] at htc
        cases htc
        exact le_refl now
      simp only [get_session, h]
      exact ⟨storeWF_aset hs hr, storeLe_aset hle hrle, hr, hrle⟩
  | some r =>
      have hmem := alookup_mem h
      obtain ⟨tc, tl, hc, hl, hcl⟩ := hs _ hmem
      have htc : tc ≤ now := hle _ hmem tc hc
      have hrr : recWF { r with last_updated := TimeStamp.time now } :=
        ⟨tc, now, hc, rfl, htc⟩
      have hrrLe : recLe { r with last_updated := TimeStamp.time now }
          now := fun t ht => hle _ hmem t ht
      simp only [get_session, h]
      exact ⟨storeWF_aset hs hrr, storeLe_aset hle hrrLe, hrr, hrrLe⟩

theorem update_session_wf {s : Store} {sid : String}
    {data : SessionRecord} {now : ℚ} (hs : storeWF s)
    (hd : ∃ tc : ℚ, data.created_at = TimeStamp.time tc ∧ tc ≤ now) :
    storeWF (update_session s sid data now) := by
  obtain ⟨tc, hc, hcle⟩ := hd
  cases h : alookup s sid with
  | some r =>
      simp only [update_session, h]
      exact storeWF_aset hs ⟨tc, now, hc, rfl, hcle⟩
  | none =>
      simp only [update_session, h]
      exact storeWF_aset hs ⟨now, now, rfl, rfl, le_refl now⟩

/-- Claim C7: every store operation preserves the invariant that each
record's `last_updated` is a parseable time no earlier than its
`created_at`, assuming the clock never runs backwards (`storeLe`) and
that `update` is fed a record whose creation time is a parseable time not
in the future (`opWF`, satisfied by every call site since they pass
records previously read from the store). -/
theorem session_timestamp_invariant (s : Store) (op : SMOp) (now : ℚ)
    (hs : storeWF s) (hle : storeLe s now) (hop : opWF op now) :
    storeWF (applyOp s op now) := by
  cases op with
  | getSession sid => exact (get_session_wf hs hle).1
  | updateSession sid data => exact update_session_wf hs hop
  | clearSession sid =>
      show storeWF (clear_session s sid now)
      cases h : alookup s sid with
      | none => simpa [clear_session, h] using hs
      | some r =>
          have hmem := alookup_mem h
          obtain ⟨tc, tl, hc, hl, hcl⟩ := hs _ hmem
          have htc : tc ≤ now := hle _ hmem tc hc
          simp only [clear_session, h]
          exact storeWF_aset hs ⟨tc, now, hc, rfl, htc⟩
  | deleteSession sid =>
      show storeWF (delete_session s sid).1
      cases h : alookup s sid with
      | none => simpa [delete_session, h] using hs
      | some r =>
          simp only [delete_session, h]
          refine storeWF_of_sub ?_ hs
          intro p hp
          rw [adelete_eq_filter] at hp
          exact (List.mem_filter.mp hp).1
  | cleanup hours =>
      show storeWF ((cleanup_old_sessions s now hours).1)
      refine storeWF_of_sub ?_ hs
      intro p hp
      simp only [cleanup_old_sessions] at hp
      rw [foldl_adelete_eq_filter] at hp
      exact (List.mem_filter.mp hp).1
  | savePref sid key value =>
      obtain ⟨hW, hLe, hr, hrle⟩ :=
        @get_session_wf s sid now hs hle
      obtain ⟨tc, tl, hc, hl, hcl⟩ := hr
      show storeWF (save_user_preference s sid key value now)
      simp only [save_user_preference]
      exact update_session_wf hW ⟨tc, hc, hrle tc hc⟩
  | getPref sid key dflt => exact (get_session_wf hs hle).1
  | saveContext sid ctx =>
      obtain ⟨hW, hLe, hr, hrle⟩ :=
        @get_session_wf s sid now hs hle
      obtain ⟨tc, tl, hc, hl, hcl⟩ := hr
      show storeWF (save_travel_context s sid ctx now)
      simp only [save_travel_context]
      exact update_session_wf hW ⟨tc, hc, hrle tc hc⟩
  | getContext sid => exact (get_session_wf hs hle).1

/-- Witness for `session_timestamp_invariant`: clearing session `a` of a
one-record well-formed store at time 5 keeps the store well-formed. -/
theorem session_timestamp_invariant_witness :
    storeWF ([("a", sampleRecord)] : Store)
    ∧ storeLe ([("a", sampleRecord)] : Store) 5
    ∧ opWF (SMOp.clearSession ("a")) 5
    ∧ storeWF (applyOp [("a", sampleRecord)] (SMOp.clearSession ("a"))
        5) := by
  have hs : storeWF ([("a", sampleRecord)] : Store) := by
    intro p hp
    rw [List.mem_singleton] at hp
    rw [hp]
    exact ⟨1, 2, rfl, rfl, by norm_num⟩
  have hle : storeLe ([("a", sampleRecord)] : Store) 5 := by
    intro p hp
    rw [List.mem_singleton] at hp
    rw [hp]
    intro tc htc
    have h1 : (1 : ℚ) = tc := by simpa [sampleRecord] using htc
    rw [← h1]
    norm_num
  exact ⟨hs, hle, trivial,
    session_timestamp_invariant _ _ _ hs hle trivial⟩

/-! ## Claim theorems: follow-up augmentation (C1) -/

/-- Claim C1: the follow-up block is appended if and only if the intent is
one of destination_inquiry / itinerary_planning / budget_planning and the
confidence exceeds 0.7; when appended, the addition is exactly the fixed
header plus the first two questions of that intent's three-question bank,
each on its own bulleted line, after the existing response text. -/
theorem followup_augmentation_spec (intent : String) (confidence : ℚ)
    (resp : String) :
    (confidence > (7/10 : ℚ) →
        run_followup_stage ("destination_inquiry") confidence resp
          = resp ++ "\n\n🤔 **To help you better, I'd love to know:**\n• What's your budget range for this trip?\n• How many days are you planning to travel?"
      ∧ run_followup_stage ("itinerary_planning") confidence resp
          = resp ++ "\n\n🤔 **To help you better, I'd love to know:**\n• What's your preferred pace (packed schedule vs. relaxed)?\n• Are there any specific must-see attractions on your list?"
      ∧ run_followup_stage ("budget_planning") confidence resp
          = resp ++ "\n\n🤔 **To help you better, I'd love to know:**\n• What's your total budget range?\n• Which expenses are most important to you (accommodation, food, activities)?")
    ∧ (¬ (intent ∈ followup_intents ∧ confidence > (7/10 : ℚ)) →
        run_followup_stage intent confidence resp = resp) := by
  constructor
  · intro hconf
    refine ⟨?_, ?_, ?_⟩
    · have hcond : ("destination_inquiry" : String) ∈ followup_intents
          ∧ confidence > (7/10 : ℚ) := ⟨by decide, hconf⟩
      simp only [run_followup_stage, should_ask_followup, if_pos hcond]
      rfl
    · have hcond : ("itinerary_planning" : String) ∈ followup_intents
          ∧ confidence > (7/10 : ℚ) := ⟨by decide, hconf⟩
      simp only [run_followup_stage, should_ask_followup, if_pos hcond]
      rfl
    · have hcond : ("budget_planning" : String) ∈ followup_intents
          ∧ confidence > (7/10 : ℚ) := ⟨by decide, hconf⟩
      simp only [run_followup_stage, should_ask_followup, if_pos hcond]
      rfl
  · intro hneg
    simp only [run_followup_stage, should_ask_followup, if_neg hneg]
    rfl

/-- Witness for `followup_augmentation_spec`: at confidence 0.8 the
destination-inquiry block is appended; at 0.6 the response is returned
unchanged. -/
theorem followup_augmentation_spec_witness :
    ((4/5 : ℚ) > (7/10 : ℚ)
      ∧ run_followup_stage ("destination_inquiry") (4/5) ("BASE")
          = "BASE" ++ "\n\n🤔 **To help you better, I'd love to know:**\n• What's your budget range for this trip?\n• How many days are you planning to travel?")
    ∧ (¬ (("destination_inquiry" : String) ∈ followup_intents
          ∧ (3/5 : ℚ) > (7/10 : ℚ))
      ∧ run_followup_stage ("destination_inquiry") (3/5) ("BASE")
          = "BASE") := by
  constructor
  · exact ⟨by norm_num,
      ((followup_augmentation_spec ("destination_inquiry") (4/5)
        ("BASE")).1 (by norm_num)).1⟩
  · have hneg : ¬ (("destination_inquiry" : String) ∈ followup_intents
        ∧ (3/5 : ℚ) > (7/10 : ℚ)) := fun hc => absurd hc.2 (by norm_num)
    exact ⟨hneg, (followup_augmentation_spec ("destination_inquiry")
      (3/5) ("BASE")).2 hneg⟩

/-! ## Claim theorems: generator message window (C3) -/

/-- Claim C3: the generator's outbound list is exactly the
intent-selected system prompt with the fixed instruction tail, then the
last six entries of the conversation history in original order, then the
current user message; with ten prior turns the list has exactly eight
entries. -/
theorem build_messages_spec (intent msg : String) :
    (∀ pre suf : List ChatMessage, suf.length = 6 →
        build_messages intent (pre ++ suf) msg
          = system_message intent :: (suf ++ [⟨"user", msg⟩]))
    ∧ (∀ history : List ChatMessage, history.length ≤ 6 →
        build_messages intent history msg
          = system_message intent :: (history ++ [⟨"user", msg⟩]))
    ∧ (∀ history : List ChatMessage, history.length = 10 →
        (build_messages intent history msg).length = 8) := by
  refine ⟨?_, ?_, ?_⟩
  · intro pre suf hsuf
    simp only [build_messages, List.length_append, hsuf,
      Nat.add_sub_cancel, List.drop_left, List.singleton_append,
      List.cons_append, List.nil_append]
  · intro history hlen
    have h0 : history.length - 6 = 0 := Nat.sub_eq_zero_of_le hlen
    simp [build_messages, h0]
  · intro history hlen
    simp [build_messages, List.length_drop, hlen]

/-- Witness for `build_messages_spec`: a ten-turn history keeps its last
six entries and the outbound list has eight entries. -/
theorem build_messages_spec_witness :
    (List.replicate 6 (⟨"user", "x"⟩ : ChatMessage)).length = 6
    ∧ build_messages ("dining")
        (List.replicate 4 (⟨"user", "x"⟩ : ChatMessage)
          ++ List.replicate 6 ⟨"user", "x"⟩) ("hello")
        = system_message ("dining")
            :: (List.replicate 6 (⟨"user", "x"⟩ : ChatMessage)
              ++ [⟨"user", "hello"⟩])
    ∧ (build_messages ("dining")
        (List.replicate 10 (⟨"user", "x"⟩ : ChatMessage))
        ("hello")).length = 8 := by
  have h := build_messages_spec ("dining") ("hello")
  exact ⟨by decide, h.1 _ _ (by decide), h.2.2 _ (by decide)⟩

/-! ## Claim theorems: the orchestrator never raises (C2) -/

/-- Claim C2 counterexample: a classifier gateway exception — a pipeline
exception from the claim's enumerated sources — is converted into the
inner-boundary text `Graph execution error: <e>`, not into the apologetic
`process_message`-boundary message the claim requires. -/
theorem pipeline_error_not_apologetic_counterexample :
    process_message
        (fun _ => Except.error ("boom")) (fun _ => Except.ok ("text"))
        ("What") ("s1") []
      = Except.ok ("Graph execution error: boom")
    ∧ process_message
        (fun _ => Except.error ("boom")) (fun _ => Except.ok ("text"))
        ("What") ("s1") []
      ≠ Except.ok ("I encountered an error while planning your trip: boom. Please try rephrasing your question.") := by
  refine ⟨rfl, fun h => absurd (Except.ok.inj h) (by decide)⟩

/-- Claim C2 (amended): for every gateway behaviour, message, session id
and history, the orchestrator never raises — the caller always receives
some text embedding any error's description.  An exception from a graph
stage (classifier or generator gateway call) is caught at the inner
`_run_graph_async` boundary and becomes the text
`Graph execution error: <e>`, not the apologetic message; only an
exception escaping the graph is caught at the `process_message` boundary
and becomes the apologetic text embedding the error description. -/
theorem process_message_never_raises
    (clsGw : String → Except String (Option ClassifierJson))
    (genGw : List ChatMessage → Except String String)
    (msg sid : String) (hist : List ChatMessage) :
    (∃ out : String,
        process_message clsGw genGw msg sid hist = Except.ok out)
    ∧ (∀ e : String, clsGw msg = Except.error e →
        process_message clsGw genGw msg sid hist
          = Except.ok ("Graph execution error: " ++ e))
    ∧ (∀ e : String, ∀ p : Option ClassifierJson,
        clsGw msg = Except.ok p →
        (∀ msgs : List ChatMessage, genGw msgs = Except.error e) →
        process_message clsGw genGw msg sid hist
          = Except.ok ("Graph execution error: " ++ e))
    ∧ (∀ e : String,
        py_try (Except.error e) (fun e2 =>
          "I encountered an error while planning your trip: " ++ e2
            ++ ". Please try rephrasing your question.")
          = Except.ok ("I encountered an error while planning your trip: "
              ++ e ++ ". Please try rephrasing your question.")) := by
  refine ⟨?_, ?_, ?_, ?_⟩
  · cases h : graph_invoke clsGw genGw msg (format_history hist) with
    | ok resp =>
        exact ⟨resp, by simp [process_message, run_graph_async, py_try, h]⟩
    | error e =>
        exact ⟨"Graph execution error: " ++ e,
          by simp [process_message, run_graph_async, py_try, h]⟩
  · intro e he
    simp [process_message, run_graph_async, graph_invoke,
      analyze_travel_intent, he, py_try]
  · intro e p hc hg
    cases p with
    | none =>
        simp [process_message, run_graph_async, graph_invoke,
          analyze_travel_intent, generate_travel_response, hc, hg, py_try]
    | some j =>
        simp [process_message, run_graph_async, graph_invoke,
          analyze_travel_intent, generate_travel_response, hc, hg, py_try]
  · intro e
    rfl

/-- Witness for `process_message_never_raises`: a classifier gateway that
raises `boom` still yields `ok` text embedding the error, and a generator
gateway that always raises `quota` does too. -/
theorem process_message_never_raises_witness :
    (fun _ : String =>
        (Except.error ("boom") : Except String (Option ClassifierJson)))
      ("What") = Except.error ("boom")
    ∧ process_message
        (fun _ => Except.error ("boom")) (fun _ => Except.ok ("text"))
        ("What") ("s1") []
        = Except.ok ("Graph execution error: boom")
    ∧ process_message
        (fun _ => Except.ok none) (fun _ => Except.error ("quota"))
        ("What") ("s1") []
        = Except.ok ("Graph execution error: quota") := by
  refine ⟨rfl, (process_message_never_raises
    (fun _ => Except.error ("boom")) (fun _ => Except.ok ("text"))
    ("What") ("s1") []).2.1 ("boom") rfl, ?_⟩
  exact (process_message_never_raises
    (fun _ => Except.ok none) (fun _ => Except.error ("quota"))
    ("What") ("s1") []).2.2.1 ("quota") none rfl (fun _ => rfl)

/-! ## Claim theorems: classifier fallback (C4) -/

/-- Claim C4 counterexample: a well-formed payload whose intent is not
one of the ten enumeration values is passed through unvalidated, so the
classification result is not the (general_travel, 0.5, empty) default the
claim requires. -/
theorem classifier_unknown_intent_counterexample :
    ("banana" : String) ∉ valid_intents
    ∧ analyze_travel_intent (fun _ => Except.ok (some bananaJson)) ("trip")
        = Except.ok ⟨"banana", ["Japan"], (9/10 : ℚ)⟩
    ∧ analyze_travel_intent (fun _ => Except.ok (some bananaJson)) ("trip")
        ≠ Except.ok ⟨"general_travel", [], (1/2 : ℚ)⟩ := by
  refine ⟨by decide, rfl, ?_⟩
  intro h
  simp [analyze_travel_intent, bananaJson, default_intent] at h

/-- Claim C4 (amended): when the gateway output fails to parse as JSON the
classification result is intent general_travel with confidence 0.5 and
empty entities; when it parses, each of intent / confidence /
key_entities falls back individually to its own default if missing, and a
present value — including an intent outside the ten-value enumeration —
is passed through unvalidated; parsing never produces an error for the
caller. -/
theorem classifier_fallback_spec
    (clsGw : String → Except String (Option ClassifierJson))
    (msg : String) :
    (clsGw msg = Except.ok none →
        analyze_travel_intent clsGw msg
          = Except.ok ⟨"general_travel", [], (1/2 : ℚ)⟩)
    ∧ (∀ j : ClassifierJson, clsGw msg = Except.ok (some j) →
        analyze_travel_intent clsGw msg
          = Except.ok ⟨j.intent.getD ("general_travel"),
              j.key_entities.getD [], j.confidence.getD (1/2 : ℚ)⟩)
    ∧ (∀ p : Option ClassifierJson, clsGw msg = Except.ok p →
        ∃ res : IntentResult,
          analyze_travel_intent clsGw msg = Except.ok res) := by
  refine ⟨?_, ?_, ?_⟩
  · intro h
    simp [analyze_travel_intent, h, default_intent]
  · intro j h
    simp [analyze_travel_intent, h, default_intent]
  · intro p h
    cases p <;> simp [analyze_travel_intent, h, default_intent]

/-- Witness for `classifier_fallback_spec`: a payload with only
key_entities present keeps its entities while intent and confidence fall
back to their individual defaults. -/
theorem classifier_fallback_spec_witness :
    (fun _ : String => (Except.ok (some ⟨none, none, some ["Paris"]⟩)
        : Except String (Option ClassifierJson))) ("m")
      = Except.ok (some ⟨none, none, some ["Paris"]⟩)
    ∧ analyze_travel_intent
        (fun _ => Except.ok (some ⟨none, none, some ["Paris"]⟩)) ("m")
      = Except.ok ⟨"general_travel", ["Paris"], (1/2 : ℚ)⟩ := by
  have h := (classifier_fallback_spec
    (fun _ => Except.ok (some ⟨none, none, some ["Paris"]⟩)) ("m")).2.1
    ⟨none, none, some ["Paris"]⟩ rfl
  exact ⟨rfl, h⟩

/-! ## Claim theorems: the session-info endpoint (C6) -/

/-- Claim C6 evaluated at the failing input: for an id the store has never
seen, `get_session_info` does not fail with a not-found condition — it
calls the get-or-create `get_session`, creates the record as a side
effect, and answers `ok` with message count 0; moreover the endpoint can
answer nothing but `ok` for any input. -/
theorem get_session_info_fresh_creates :
    alookup ([] : Store) ("fresh") = none
    ∧ (get_session_info [] ("fresh") 5).2
        = Except.ok {
            session_id := "fresh",
            message_count := 0,
            created_at := TimeStamp.time 5,
            last_updated := TimeStamp.time 5 }
    ∧ alookup (get_session_info [] ("fresh") 5).1 ("fresh")
        = some (emptyRecord 5)
    ∧ (∀ (s : Store) (sid : String) (now : ℚ),
        ∃ info : SessionInfo,
          (get_session_info s sid now).2 = Except.ok info) := by
  refine ⟨rfl, rfl, ?_, ?_⟩
  · simp [get_session_info, get_session, alookup, alookup_aset_self]
  · intro s sid now
    exact ⟨_, rfl⟩

end TravelPlanner
